import Mathlib

/-!
Verification development for the QR-sender form component
(`src/pages/Index.tsx`).  JavaScript strings are embedded as `List Char`;
the component's React state is embedded as an explicit record, its event
handlers as state-transition functions, and the asynchronous
file-to-preview conversion as an explicit event system.
-/

namespace QRSender

/-- One character of the Telegram-username character class, embedding the
JS regex character class `[a-zA-Z0-9_]`. -/
def isTelegramChar (c : Char) : Bool :=
  (('a' ≤ c && c ≤ 'z') || ('A' ≤ c && c ≤ 'Z') || ('0' ≤ c && c ≤ '9') || c == '_')

/-- One character of the class kept by the formatter, embedding the JS
regex class `[a-zA-Z0-9_@]` (the complement of what
`value.replace(/[^a-zA-Z0-9_@]/g, '')` deletes). -/
def isFormatChar (c : Char) : Bool :=
  isTelegramChar c || c == '@'

/-- Embeds the JS expression `username.replace('@', '')`: with a string
pattern, `String.prototype.replace` removes only the FIRST occurrence of
`'@'`, wherever in the string it appears. -/
def removeFirstAt : List Char → List Char
  | [] => []
  | c :: cs => if c == '@' then cs else c :: removeFirstAt cs

/-- Embeds `/^[a-zA-Z0-9_]{5,32}$/.test s`: the whole string consists of
5 to 32 characters of the class `[a-zA-Z0-9_]`. -/
def telegramRegexTest (s : List Char) : Bool :=
  decide (5 ≤ s.length) && decide (s.length ≤ 32) && s.all isTelegramChar

/-- Embeds `validateTelegramUsername` (Index.tsx lines 84–88):
`const cleanUsername = username.replace('@', '');
 return /^[a-zA-Z0-9_]{5,32}$/.test(cleanUsername);`. -/
def validateTelegramUsername (username : List Char) : Bool :=
  let cleanUsername := removeFirstAt username
  telegramRegexTest cleanUsername

/-- Embeds `formatTelegramUsername` (Index.tsx lines 91–97):
filter to `[a-zA-Z0-9_@]`; if the result is nonempty and does not start
with `'@'`, prefix `'@'`; then `.slice(0, 33)`. -/
def formatTelegramUsername (value : List Char) : List Char :=
  let formatted := value.filter isFormatChar
  let withAt : List Char :=
    if formatted ≠ [] ∧ formatted.head? ≠ some '@' then '@' :: formatted
    else formatted
  withAt.take 33

/-- Modelled from the spec's words, for comparison with the code's
`validateTelegramUsername`: strip one LEADING `'@'` (if present), then
require 5–32 characters of the class `[A-Za-z0-9_]`.  This is the
validation predicate the spec describes; the code differs in which `'@'`
it strips. -/
def stripLeadingAt : List Char → List Char
  | '@' :: cs => cs
  | u => u

/-- Modelled from the spec's words: the validation predicate as the spec
states it (strip a leading `'@'`, then length in [5,32] over
`[A-Za-z0-9_]`). -/
def specValidateLeading (u : List Char) : Bool :=
  telegramRegexTest (stripLeadingAt u)

/-- An uploaded file as the handlers see it: `name`, MIME `type` (a
`List Char` so the `type.startsWith('image/')` check is structural), and
`size` in bytes. -/
structure File where
  name : String
  type : List Char
  size : Nat
deriving DecidableEq

/-- A toast notification as emitted by the `toast({...})` calls: title,
description, and whether `variant: "destructive"` was passed. -/
structure Toast where
  title : String
  description : String
  destructive : Bool
deriving DecidableEq

/-- The toast of Index.tsx lines 22–26 (wrong MIME type). -/
def wrongFormatToast : Toast :=
  { title := "Неверный формат", description := "Пожалуйста, выберите изображение",
    destructive := true }

/-- The toast of Index.tsx lines 31–35 (file over 10 MB). -/
def tooLargeToast : Toast :=
  { title := "Файл слишком большой", description := "Максимальный размер файла: 10MB",
    destructive := true }

/-- The toast of Index.tsx lines 48–51 (file accepted). -/
def uploadedToast (f : File) : Toast :=
  { title := "QR-код загружен!", description := "Файл: " ++ f.name, destructive := false }

/-- The toast of Index.tsx lines 110–114 (no file on submit). -/
def noQrToast : Toast :=
  { title := "QR-код не выбран", description := "Пожалуйста, загрузите QR-код",
    destructive := true }

/-- The toast of Index.tsx lines 119–123 (invalid username on submit). -/
def invalidUsernameToast : Toast :=
  { title := "Неверный username",
    description := "Username должен содержать 5-32 символа (a-z, 0-9, _)",
    destructive := true }

/-- The toast of Index.tsx lines 134–137 (successful send). -/
def sentToast (username : List Char) : Toast :=
  { title := "QR-код отправлен! 🚀",
    description := "Отправлено пользователю " ++ String.mk username, destructive := false }

/-- The component's React state (`useState` hooks of Index.tsx lines 11–16)
plus the file-input element's `value` (cleared through `fileInputRef`). -/
structure FormState where
  qrFile : Option File
  qrPreview : String
  telegramUsername : List Char
  isSubmitting : Bool
  isDragging : Bool
  isSubmitted : Bool
  fileInputValue : String
deriving DecidableEq

/-- The initial state of all `useState` hooks. -/
def initialForm : FormState :=
  { qrFile := none, qrPreview := "", telegramUsername := [], isSubmitting := false,
    isDragging := false, isSubmitted := false, fileInputValue := "" }

/-- Embeds `handleFileSelect` (Index.tsx lines 20–52).  Returns the new form
state, the emitted toasts, and the file (if any) for which a `FileReader`
preview conversion was started; the preview itself is set later by the
asynchronous `reader.onload` callback, never synchronously here. -/
def handleFileSelect (file : File) (s : FormState) : FormState × List Toast × Option File :=
  if !("image/".data.isPrefixOf file.type) then
    (s, [wrongFormatToast], none)
  else if file.size > 10 * 1024 * 1024 then
    (s, [tooLargeToast], none)
  else
    ({ s with qrFile := some file }, [uploadedToast file], some file)

/-- Embeds `clearFile` (Index.tsx lines 159–165). -/
def clearFile (s : FormState) : FormState :=
  { s with qrFile := none, qrPreview := "", fileInputValue := "" }

/-- The spec's SubmissionState view of the component flags. -/
inductive SubmissionState where
  | idle
  | submitting
  | submitted
deriving DecidableEq

/-- The submission state shown by the component: `isSubmitted` selects the
success screen, otherwise `isSubmitting` selects the in-progress button. -/
def submissionState (s : FormState) : SubmissionState :=
  if s.isSubmitted then .submitted
  else if s.isSubmitting then .submitting
  else .idle

/-- Embeds `handleSubmit` (Index.tsx lines 106–156) as timed snapshots: each
pair gives the number of milliseconds after invocation and the form state
from that point on.  The async body is linearized: `setIsSubmitting(true)`
at time 0; after the 2000 ms simulated send, `setIsSubmitted(true)` and the
`finally` clause's `setIsSubmitting(false)` (one snapshot); and the 3000 ms
reset timer, at 5000 ms, clearing the form.  The awaited promise cannot
reject, so the `catch` branch is unreachable and has no snapshot. -/
def handleSubmit (s : FormState) : List (Nat × FormState) × List Toast :=
  if s.qrFile = none then
    ([(0, s)], [noQrToast])
  else if s.telegramUsername.isEmpty || !validateTelegramUsername s.telegramUsername then
    ([(0, s)], [invalidUsernameToast])
  else
    let s1 := { s with isSubmitting := true }
    let s2 := { s1 with isSubmitted := true, isSubmitting := false }
    let s3 := { s2 with isSubmitted := false, qrFile := none,
                        qrPreview := "", telegramUsername := [] }
    ([(0, s1), (2000, s2), (5000, s3)], [sentToast s.telegramUsername])

/-! ### Event system for the asynchronous preview conversion -/

/-- An event of the file-intake subsystem: the user selects a file, or the
`reader.onload` callback created for one pending `readAsDataURL` fires
with its result. -/
inductive Ev where
  | select (f : File)
  | readComplete (f : File) (result : String)
deriving DecidableEq

/-- Form state plus the multiset of files whose `FileReader` conversion has
been started and has not completed yet. -/
structure SysState where
  form : FormState
  pending : List File
deriving DecidableEq

/-- The initial system state. -/
def initialSys : SysState := { form := initialForm, pending := [] }

/-- One event step.  A `select` runs `handleFileSelect` and, on acceptance,
records the started read.  A `readComplete f r` is enabled only while a
read of `f` is pending, and embeds the `onload` handler of Index.tsx lines
43–45: it unconditionally runs `setQrPreview(result)` — there is no
generation token, so a stale result is applied like a fresh one. -/
def step (s : SysState) : Ev → Option SysState
  | .select f =>
    some { form := (handleFileSelect f s.form).1,
           pending := s.pending ++ ((handleFileSelect f s.form).2.2).toList }
  | .readComplete f r =>
    if f ∈ s.pending then
      some { form := { s.form with qrPreview := r }, pending := s.pending.erase f }
    else none

/-- Run a list of events from a state; `none` if some event was not enabled. -/
def run (s : SysState) : List Ev → Option SysState
  | [] => some s
  | e :: es => (step s e).bind fun s2 => run s2 es

/-- The result carried by the last `readComplete` event of a trace, or the
accumulator if there is none. -/
def lastReadResult (acc : String) : List Ev → String
  | [] => acc
  | .select _ :: es => lastReadResult acc es
  | .readComplete _ r :: es => lastReadResult r es

/-- First concrete image file for traces. -/
def fileA : File := { name := "a.png", type := "image/png".data, size := 1 }

/-- Second concrete image file for traces. -/
def fileB : File := { name := "b.png", type := "image/png".data, size := 2 }

/-- The racing trace: `fileA` is selected, then `fileB`; `fileB`'s (fast)
conversion completes first, and `fileA`'s (slow, superseded) conversion
completes last. -/
def raceTrace : List Ev :=
  [.select fileA, .select fileB, .readComplete fileB "data:b", .readComplete fileA "data:a"]

/-- The state the racing trace ends in. -/
def raceFinal : SysState :=
  { form := { initialForm with qrFile := some fileB, qrPreview := "data:a" }, pending := [] }

/-- A form state ready to submit: a stored image file and a valid handle,
with no submission in progress. -/
def submitReadyForm : FormState :=
  { qrFile := some fileA, qrPreview := "x", telegramUsername := "@valid_1".data,
    isSubmitting := false, isDragging := false, isSubmitted := false, fileInputValue := "y" }

/-- A concrete non-image file, larger than the size limit as well. -/
def textFile : File := { name := "doc.txt", type := "text/plain".data, size := 11 * 1024 * 1024 }

/-- A concrete image file of exactly the 10 MB size limit. -/
def okFile : File := { name := "ok.png", type := "image/png".data, size := 10 * 1024 * 1024 }

/-- A concrete image file one byte over the 10 MB size limit. -/
def bigFile : File :=
  { name := "big.png", type := "image/png".data, size := 10 * 1024 * 1024 + 1 }

/-! ### Helper lemmas about the formatter -/

/-- Every character of a formatted username lies in the class `[A-Za-z0-9_@]`. -/
theorem format_all_formatChar (v : List Char) :
    ∀ c ∈ formatTelegramUsername v, isFormatChar c = true := by
  intro c hc
  unfold formatTelegramUsername at hc
  simp only at hc
  have hc2 := List.take_subset _ _ hc
  split at hc2
  · rcases List.mem_cons.mp hc2 with h | h
    · subst h; rfl
    · exact (List.mem_filter.mp h).2
  · exact (List.mem_filter.mp hc2).2

/-- A formatted username has at most 33 characters. -/
theorem format_length_le (v : List Char) :
    (formatTelegramUsername v).length ≤ 33 := by
  unfold formatTelegramUsername
  exact List.length_take_le _ _

/-- A formatted username is empty exactly when the input has no character of
the class `[A-Za-z0-9_@]`. -/
theorem format_eq_nil_iff (v : List Char) :
    formatTelegramUsername v = [] ↔ v.filter isFormatChar = [] := by
  unfold formatTelegramUsername
  simp only
  constructor
  · intro h
    split at h
    · simp at h
    · rcases hF : v.filter isFormatChar with _ | ⟨c, rest⟩
      · rfl
      · rw [hF] at h; simp at h
  · intro h
    rw [h]
    simp

/-- A formatted username is empty or begins with `'@'`. -/
theorem format_head (v : List Char) :
    formatTelegramUsername v = [] ∨ (formatTelegramUsername v).head? = some '@' := by
  unfold formatTelegramUsername
  simp only
  split
  · right; rfl
  · rename_i hcond
    rcases hF : v.filter isFormatChar with _ | ⟨c, rest⟩
    · left; rfl
    · right
      push_neg at hcond
      have hc : c = '@' := by
        have := hcond (by rw [hF]; simp)
        rw [hF] at this
        simpa using this
      subst hc
      rfl

/-! ### Claim theorems for the validator and formatter -/

/-- C1 counterexample: on the input `"abcd@e"` the code's
`validateTelegramUsername` returns `true` (JS `replace('@','')` removes the
first `'@'` anywhere in the string), while the claim's condition — strip a
LEADING `'@'`, then all characters in `[A-Za-z0-9_]` — is false, since the
remainder still contains `'@'`.  So the claimed equivalence fails. -/
theorem validate_leadingStrip_counterexample :
    ¬ (validateTelegramUsername "abcd@e".data = true ↔
        specValidateLeading "abcd@e".data = true) := by
  decide

/-- C1 (amended): `validateTelegramUsername u` returns `true` iff, after
removing the FIRST occurrence of `'@'` anywhere in `u` (if present), the
remainder has length between 5 and 32 and consists only of characters in
`[A-Za-z0-9_]`. -/
theorem validate_characterization (u : List Char) :
    validateTelegramUsername u = true ↔
      (5 ≤ (removeFirstAt u).length ∧ (removeFirstAt u).length ≤ 32 ∧
        ∀ c ∈ removeFirstAt u, isTelegramChar c = true) := by
  simp [validateTelegramUsername, telegramRegexTest, List.all_eq_true, and_assoc]

/-- C2 counterexample: `formatTelegramUsername` applied to `""` yields `""`,
which does not begin with `'@'`; applied to `"@@abcde"` it yields
`"@@abcde"`, which begins with two `'@'` characters rather than exactly
one.  Both refute the claim that the result always begins with exactly one
leading `'@'`. -/
theorem format_counterexample :
    ¬ ((formatTelegramUsername "".data).head? = some '@') ∧
    ¬ ((formatTelegramUsername "@@abcde".data).head? = some '@' ∧
        (formatTelegramUsername "@@abcde".data).tail.head? ≠ some '@') := by
  decide

/-- C2 (amended): every output of `formatTelegramUsername` contains only
characters of the class `[A-Za-z0-9_@]` and has length at most 33; it is
empty exactly when the input has no character of that class, and whenever
it is nonempty it begins with `'@'` (possibly more than one `'@'`, when the
filtered input itself begins with repeated `'@'`). -/
theorem format_shape (v : List Char) :
    (∀ c ∈ formatTelegramUsername v, isFormatChar c = true) ∧
    (formatTelegramUsername v).length ≤ 33 ∧
    (formatTelegramUsername v = [] ↔ v.filter isFormatChar = []) ∧
    (formatTelegramUsername v = [] ∨ (formatTelegramUsername v).head? = some '@') :=
  ⟨format_all_formatChar v, format_length_le v, format_eq_nil_iff v, format_head v⟩

/-- C3: `formatTelegramUsername` is idempotent. -/
theorem format_idempotent (v : List Char) :
    formatTelegramUsername (formatTelegramUsername v) = formatTelegramUsername v := by
  have hfilter : (formatTelegramUsername v).filter isFormatChar = formatTelegramUsername v :=
    List.filter_eq_self.mpr (format_all_formatChar v)
  have hdef : ∀ w : List Char, formatTelegramUsername w =
      (if w.filter isFormatChar ≠ [] ∧ (w.filter isFormatChar).head? ≠ some '@' then
        '@' :: w.filter isFormatChar
      else w.filter isFormatChar).take 33 := fun _ => rfl
  rcases format_head v with h | h
  · rw [h]
    rfl
  · rw [hdef (formatTelegramUsername v), hfilter, if_neg (by simp [h]),
      List.take_of_length_le (format_length_le v)]

/-! ### Claim theorems for file intake, submit, and clear -/

/-- C4: a file whose MIME type does not start with `image/` is rejected with
the wrong-format toast, whatever its size: the form state (stored file and
preview included) is returned unchanged, no read is started, and the
oversize toast is never emitted, so the size check is not reached. -/
theorem fileSelect_wrong_type_rejected (file : File) (s : FormState)
    (h : "image/".data.isPrefixOf file.type = false) :
    handleFileSelect file s = (s, [wrongFormatToast], none) := by
  simp [handleFileSelect, h]

/-- C4 witness: a `text/plain` file is rejected with the wrong-format toast
even though it is also oversized (11 MB), showing the type check comes
first. -/
theorem fileSelect_wrong_type_rejected_witness :
    handleFileSelect textFile initialForm = (initialForm, [wrongFormatToast], none) :=
  fileSelect_wrong_type_rejected textFile initialForm (by decide)

/-- C5: for image files, a size of exactly `10*1024*1024` bytes is accepted
(the file is stored and its preview read starts) and a size of
`10*1024*1024 + 1` bytes is rejected with the oversize toast, leaving the
form state unchanged. -/
theorem fileSelect_size_boundary (f g : File) (s : FormState)
    (hf : "image/".data.isPrefixOf f.type = true)
    (hg : "image/".data.isPrefixOf g.type = true)
    (hfs : f.size = 10 * 1024 * 1024)
    (hgs : g.size = 10 * 1024 * 1024 + 1) :
    handleFileSelect f s = ({ s with qrFile := some f }, [uploadedToast f], some f) ∧
    handleFileSelect g s = (s, [tooLargeToast], none) := by
  constructor
  · simp [handleFileSelect, hf, hfs]
  · simp [handleFileSelect, hg, hgs]

/-- C5 witness: the boundary behavior at concrete 10 MB and 10 MB + 1 byte
image files. -/
theorem fileSelect_size_boundary_witness :
    handleFileSelect okFile initialForm
        = ({ initialForm with qrFile := some okFile }, [uploadedToast okFile], some okFile) ∧
      handleFileSelect bigFile initialForm = (initialForm, [tooLargeToast], none) :=
  fileSelect_size_boundary okFile bigFile initialForm (by decide) (by decide) rfl rfl

/-- C9: `clearFile` resets the stored file, the preview, and the file-input
element's value, and leaves the handle string, the submitting flag, the
submitted flag, and the dragging flag unchanged. -/
theorem clearFile_frame (s : FormState) :
    (clearFile s).qrFile = none ∧ (clearFile s).qrPreview = "" ∧
    (clearFile s).fileInputValue = "" ∧
    (clearFile s).telegramUsername = s.telegramUsername ∧
    (clearFile s).isSubmitting = s.isSubmitting ∧
    (clearFile s).isSubmitted = s.isSubmitted ∧
    (clearFile s).isDragging = s.isDragging :=
  ⟨rfl, rfl, rfl, rfl, rfl, rfl, rfl⟩

/-- The empty handle fails validation (length 0 < 5). -/
theorem validate_nil : validateTelegramUsername [] = false := rfl

/-- A handle that passes validation is nonempty. -/
theorem isEmpty_eq_false_of_validate {u : List Char}
    (hv : validateTelegramUsername u = true) : u.isEmpty = false := by
  cases u with
  | nil => exact absurd hv (by decide)
  | cons c cs => rfl

/-- C6: when no file is stored or the handle fails validation, `handleSubmit`
refuses the transition: the only snapshot is the unchanged state at time 0
(so the stored file, preview, handle, and submission state are untouched)
and the toast names the specific reason — missing image when no file is
stored, invalid username otherwise. -/
theorem submit_refused_keeps_state (s : FormState)
    (h : s.qrFile = none ∨ validateTelegramUsername s.telegramUsername = false) :
    handleSubmit s =
      ([(0, s)], [if s.qrFile = none then noQrToast else invalidUsernameToast]) := by
  by_cases hq : s.qrFile = none
  · simp [handleSubmit, hq]
  · rcases h with h | h
    · exact absurd h hq
    · simp [handleSubmit, hq, h]

/-- C6 witness: submitting the initial form (no file stored) is refused with
the missing-image toast and the state is unchanged. -/
theorem submit_refused_keeps_state_witness :
    handleSubmit initialForm =
      ([(0, initialForm)],
        [if initialForm.qrFile = none then noQrToast else invalidUsernameToast]) :=
  submit_refused_keeps_state initialForm (Or.inl rfl)

/-- C7: from an idle state with a stored file and a valid handle,
`handleSubmit` produces the snapshot sequence submitting (at 0 ms),
submitted (at 2000 ms, unconditionally — there is no failure path), and
idle again (at 5000 ms); the final snapshot has the file, preview, and
handle all cleared, and the success toast is emitted. -/
theorem submit_success_sequence (s : FormState)
    (hsubm : s.isSubmitting = false) (hsubd : s.isSubmitted = false)
    (hq : s.qrFile ≠ none)
    (hv : validateTelegramUsername s.telegramUsername = true) :
    submissionState s = SubmissionState.idle ∧
    (handleSubmit s).1.map (fun p => (p.1, submissionState p.2)) =
      [(0, SubmissionState.submitting), (2000, SubmissionState.submitted),
        (5000, SubmissionState.idle)] ∧
    ((handleSubmit s).1.map
        (fun p => (p.1, p.2.qrFile, p.2.qrPreview, p.2.telegramUsername))).getLast? =
      some (5000, none, "", []) ∧
    (handleSubmit s).2 = [sentToast s.telegramUsername] := by
  have hne := isEmpty_eq_false_of_validate hv
  refine ⟨?_, ?_, ?_, ?_⟩ <;>
    simp [handleSubmit, submissionState, hq, hv, hne, hsubm, hsubd]

/-- C7 witness: the full submit sequence on a concrete ready form with the
handle `"@valid_1"`. -/
theorem submit_success_sequence_witness :
    submissionState submitReadyForm = SubmissionState.idle ∧
    (handleSubmit submitReadyForm).1.map (fun p => (p.1, submissionState p.2)) =
      [(0, SubmissionState.submitting), (2000, SubmissionState.submitted),
        (5000, SubmissionState.idle)] ∧
    ((handleSubmit submitReadyForm).1.map
        (fun p => (p.1, p.2.qrFile, p.2.qrPreview, p.2.telegramUsername))).getLast? =
      some (5000, none, "", []) ∧
    (handleSubmit submitReadyForm).2 = [sentToast submitReadyForm.telegramUsername] :=
  submit_success_sequence submitReadyForm rfl rfl (by decide) (by decide)

/-- C10: starting from a state not already submitting, every run of
`handleSubmit` ends with the submitting flag false (the last snapshot of
every branch clears it), and — encoded as a Boolean `all` over the
snapshots — the flag is true in a snapshot only when both precondition
checks passed (a file is stored and the handle validates). -/
theorem submit_ends_not_submitting (s : FormState) (hs : s.isSubmitting = false) :
    ((handleSubmit s).1.getLast?).map (fun p => p.2.isSubmitting) = some false ∧
    (handleSubmit s).1.all
        (fun p => !p.2.isSubmitting ||
          (!(s.qrFile == none) && validateTelegramUsername s.telegramUsername)) = true := by
  by_cases hq : s.qrFile = none
  · simp [handleSubmit, hq, hs]
  · by_cases hv : validateTelegramUsername s.telegramUsername = true
    · have hne := isEmpty_eq_false_of_validate hv
      simp [handleSubmit, hq, hv, hne, hs]
    · rw [Bool.not_eq_true] at hv
      simp [handleSubmit, hq, hv, hs]

/-- C10 witness: on the concrete ready form the submit run ends with the
submitting flag false, and intermediate snapshots set it only because both
checks passed. -/
theorem submit_ends_not_submitting_witness :
    ((handleSubmit submitReadyForm).1.getLast?).map (fun p => p.2.isSubmitting)
        = some false ∧
      (handleSubmit submitReadyForm).1.all
        (fun p => !p.2.isSubmitting ||
          (!(submitReadyForm.qrFile == none) &&
            validateTelegramUsername submitReadyForm.telegramUsername)) = true :=
  submit_ends_not_submitting submitReadyForm rfl

/-! ### Claim theorems for the asynchronous preview race -/

/-- Selecting a file never changes the preview synchronously: the preview is
only written by the asynchronous `onload` callback. -/
theorem handleFileSelect_preview (f : File) (s : FormState) :
    ((handleFileSelect f s).1).qrPreview = s.qrPreview := by
  unfold handleFileSelect
  split
  · rfl
  · split <;> rfl

/-- C8 counterexample: on the racing trace — `fileA` selected, then `fileB`;
`fileB`'s conversion (result `"data:b"`) completes before `fileA`'s
(result `"data:a"`) — the final stored file is `fileB` (the most recently
accepted file) but the displayed preview is `"data:a"`, the conversion
result of the superseded `fileA`, not `fileB`'s result `"data:b"`.  The
stale result was not discarded: there is no generation token. -/
theorem preview_race_counterexample :
    (run initialSys raceTrace).map (fun s => (s.form.qrFile, s.form.qrPreview))
        = some (some fileB, "data:a") ∧
      ("data:a" : String) ≠ "data:b" := by
  decide

/-- C8 (amended): after any valid sequence of file selections and
preview-conversion completions, the displayed preview equals the result of
the most recently COMPLETED conversion (or the starting preview when none
completed) — which may belong to a superseded selection, since no
conversion result is ever discarded. -/
theorem preview_is_last_completed_read (tr : List Ev) :
    ∀ s0 s : SysState, run s0 tr = some s →
      s.form.qrPreview = lastReadResult s0.form.qrPreview tr := by
  induction tr with
  | nil =>
    intro s0 s h
    simp only [run, Option.some.injEq] at h
    subst h
    rfl
  | cons e es ih =>
    intro s0 s h
    cases e with
    | select f =>
      simp only [run, step, Option.some_bind] at h
      rw [ih _ s h, handleFileSelect_preview]
      rfl
    | readComplete f r =>
      by_cases hm : f ∈ s0.pending
      · simp only [run, step, if_pos hm, Option.some_bind] at h
        exact ih _ s h
      · simp only [run, step, if_neg hm, Option.none_bind] at h
        exact absurd h (by simp)

/-- C8 witness: on the racing trace the final preview `"data:a"` is exactly
the result of the last completed conversion. -/
theorem preview_is_last_completed_read_witness :
    raceFinal.form.qrPreview = lastReadResult initialSys.form.qrPreview raceTrace :=
  preview_is_last_completed_read raceTrace initialSys raceFinal (by decide)

end QRSender
